import Mathlib

/-
Shallow embedding of `src/elodie/media/media.py` (class `Media`).

Modelling conventions:
  * Python values stored in the raw exiftool metadata mapping are modelled by
    `PyVal` (a string or a number).  Numbers are modelled by `ℚ`: the only
    arithmetic the source performs on a metadata value is multiplication by the
    integer `direction_multiplier ∈ {1, -1}` (media.py:91-102), which is exact in
    IEEE floating point, so `ℚ` is a faithful model of the floats involved.
  * The raw mapping (a Python dict produced by exiftool) is an association list
    with distinct keys; `rmLookup` is dict lookup, absence is `Option.none`.
    Python dicts preserve insertion order, which the list order mirrors.
  * `PyObj` models the union type returned by `get_exiftool_attributes`
    (media.py:106-121): a dict, the Python constant `False` (tool unavailable or
    no metadata), or Python `None` (never actually produced by that method, but
    explicitly tested for by `get_title`/`get_album`, so it is kept in the type).
  * The external world is an `Env`: whether `get_exiftool()` locates the binary,
    the metadata the tool reports for the record's source file, and the status
    string returned by the n-th `set_tags` call.
  * Mutable object state is `MState`, threaded explicitly.  Besides the fields
    of the Python object (`valid` for the externally supplied `is_valid()`
    oracle, `exiftool_attributes` for the cache field written by `reset_cache`,
    `baseCache` for the base class's cached state) it carries observation
    counters: `locateCalls` counts `get_exiftool()` invocations, `readCalls`
    counts `et.get_metadata` invocations, `writeCalls`/`writeLog` record
    `et.set_tags` invocations.  These counters let theorems state "the Gateway
    was (not) invoked".
  * Python exceptions are modelled with `Except PyErr`; `get_title`/`get_album`
    can raise `TypeError` when they evaluate `key not in False`.
-/

namespace Elodie

/-- A raw metadata value as produced by the external tool: a string or a
number (see the modelling note on `ℚ` above). -/
inductive PyVal where
  | str : String → PyVal
  | num : ℚ → PyVal
deriving DecidableEq

/-- A raw metadata mapping: Python dict from tag-key string to value. -/
abbrev RawMap := List (String × PyVal)

/-- Python dict lookup: first (unique) binding of the key, `none` if absent. -/
def rmLookup : RawMap → String → Option PyVal
  | [], _ => Option.none
  | (k, v) :: rest, key => if k = key then some v else rmLookup rest key

/-- String repetition, `s * n` in Python (non-positive `n` gives `""`). -/
def strRepeat (s : String) : Nat → String
  | 0 => ""
  | n + 1 => s ++ strRepeat s n

/-- Python multiplication of a metadata value by an `int`
(`exif[key] * direction_multiplier`, media.py:98/102): numbers multiply,
strings repeat (`'S' * -1 = ''`). -/
def pyMul : PyVal → Int → PyVal
  | .num q, m => .num (q * (m : ℚ))
  | .str a, m => .str (strRepeat a m.toNat)

/-- The union type returned by `Media.get_exiftool_attributes`
(media.py:106-121): a dict, Python `False`, or Python `None`. -/
inductive PyObj where
  | pyNone : PyObj
  | pyFalse : PyObj
  | dict : RawMap → PyObj
deriving DecidableEq

/-- Python truthiness of a `PyObj` (`if not exif`, media.py:85):
`None` and `False` are falsy, a dict is truthy iff non-empty. -/
def pyTruthy : PyObj → Bool
  | .pyNone => false
  | .pyFalse => false
  | .dict m => !m.isEmpty

/-- Python exceptions that the embedded code can raise. -/
inductive PyErr where
  | typeError : PyErr
deriving DecidableEq

/-- The tag-key constants set in `Media.__init__` (media.py:37-57). -/
def album_key : String := "XMP:Album"

/-- Title tag key (media.py:47). -/
def title_key : String := "XMP:Title"

/-- Ordered latitude candidate keys (media.py:48). -/
def latitude_keys : List String := ["EXIF:GPSLatitude"]

/-- Ordered longitude candidate keys (media.py:49). -/
def longitude_keys : List String := ["EXIF:GPSLongitude"]

/-- Latitude hemisphere reference key (media.py:50). -/
def latitude_ref_key : String := "EXIF:GPSLatitudeRef"

/-- Longitude hemisphere reference key (media.py:51). -/
def longitude_ref_key : String := "EXIF:GPSLongitudeRef"

/-- `self.set_gps_ref = True` (media.py:52). -/
def set_gps_ref : Bool := true

/-- The three date-taken candidate keys, `self.exif_map['date_taken']`
(media.py:40-45). -/
def date_taken_keys : List String :=
  ["EXIF:DateTimeOriginal", "EXIF:DateTime", "EXIF:DateTimeDigitized"]

/-- The external environment seen through the Gateway: whether
`get_exiftool()` locates the exiftool binary, the metadata the tool reports
for this record's source path (`[]` models a falsy/empty result), and the
status string returned by the n-th `et.set_tags` call (`""` is failure). -/
structure Env where
  exiftoolAvailable : Bool
  metadata : RawMap
  writeStatus : Nat → String

/-- The mutable state of one `Media` object, threaded explicitly, plus
observation counters for Gateway interactions. -/
structure MState where
  valid : Bool
  exiftool_attributes : Option RawMap
  baseCache : Option RawMap
  locateCalls : Nat
  readCalls : Nat
  writeCalls : Nat
  writeLog : List RawMap
deriving DecidableEq

/-- Translation of `Media.get_exiftool_attributes` (media.py:106-121).
Calls `get_exiftool()`; if the binary is not located, returns `False`.
Otherwise opens an ExifTool session, requests the metadata, and returns
`False` when the result is falsy, else the metadata dict.  Note that the
cache field `self.exiftool_attributes` is never consulted nor written here:
every call goes to the tool. -/
def get_exiftool_attributes (env : Env) (s : MState) : PyObj × MState :=
  let s1 := { s with locateCalls := s.locateCalls + 1 }
  if !env.exiftoolAvailable then
    (.pyFalse, s1)
  else
    let s2 := { s1 with readCalls := s1.readCalls + 1 }
    if env.metadata.isEmpty then
      (.pyFalse, s2)
    else
      (.dict env.metadata, s2)

/-- Translation of `Media.get_title` (media.py:123-139).  Checks validity,
fetches the attributes, tests `is None` (which the `False` failure value does
not satisfy), then evaluates `self.title_key not in exiftool_attributes` —
which on Python `False` raises `TypeError`. -/
def get_title (env : Env) (s : MState) : Except PyErr (Option PyVal) × MState :=
  if !s.valid then
    (.ok Option.none, s)
  else
    let r := get_exiftool_attributes env s
    match r.1 with
    | .pyNone => (.ok Option.none, r.2)
    | .pyFalse => (.error .typeError, r.2)
    | .dict m =>
      if (rmLookup m title_key).isNone then
        (.ok Option.none, r.2)
      else
        (.ok (rmLookup m title_key), r.2)

/-- Translation of `Media.get_album` (media.py:59-74); same shape as
`get_title` with the album key. -/
def get_album (env : Env) (s : MState) : Except PyErr (Option PyVal) × MState :=
  if !s.valid then
    (.ok Option.none, s)
  else
    let r := get_exiftool_attributes env s
    match r.1 with
    | .pyNone => (.ok Option.none, r.2)
    | .pyFalse => (.error .typeError, r.2)
    | .dict m =>
      if (rmLookup m album_key).isNone then
        (.ok Option.none, r.2)
      else
        (.ok (rmLookup m album_key), r.2)

/-- The loop of `Media.get_coordinate` (media.py:91-104): iterate
`latitude_keys + longitude_keys`; on the first key that belongs to the
requested axis and is present in `exif`, negate iff the axis's reference key
holds 'S' (latitude) or 'W' (longitude) and return immediately; `None` if no
candidate matches. -/
def coordLoop (exif : RawMap) (type : String) : List String → Option PyVal
  | [] => Option.none
  | key :: rest =>
    if (type == "latitude") && latitude_keys.contains key
        && (rmLookup exif key).isSome then
      match rmLookup exif key with
      | some v =>
        let direction_multiplier : Int :=
          if rmLookup exif latitude_ref_key = some (.str "S") then -1 else 1
        some (pyMul v direction_multiplier)
      | Option.none => Option.none
    else if (type == "longitude") && longitude_keys.contains key
        && (rmLookup exif key).isSome then
      match rmLookup exif key with
      | some v =>
        let direction_multiplier : Int :=
          if rmLookup exif longitude_ref_key = some (.str "W") then -1 else 1
        some (pyMul v direction_multiplier)
      | Option.none => Option.none
    else coordLoop exif type rest

/-- Resolution of one coordinate axis from a raw mapping: the loop of
`Media.get_coordinate` applied to the combined candidate key list. -/
def resolve_coordinate (exif : RawMap) (type : String) : Option PyVal :=
  coordLoop exif type (latitude_keys ++ longitude_keys)

/-- Translation of `Media.get_coordinate` (media.py:76-104).  Note: unlike
`get_album`/`get_title` there is no `is_valid()` check; the attributes are
fetched unconditionally, `if not exif: return None` absorbs the `False`
failure value, then the candidate-key loop runs. -/
def get_coordinate (env : Env) (s : MState) (type : String) :
    Option PyVal × MState :=
  let r := get_exiftool_attributes env s
  if !pyTruthy r.1 then
    (Option.none, r.2)
  else
    match r.1 with
    | .dict m => (resolve_coordinate m type, r.2)
    | _ => (Option.none, r.2)

/-- Translation of `Media.reset_cache` (media.py:141-145): sets
`self.exiftool_attributes = None`, then calls the base class's reset.
Modelled from the spec: `Base.reset_cache` is not under src/; per the spec it
"clears the raw-mapping cache and any dependent cached state", modelled as
clearing `baseCache`. -/
def reset_cache (s : MState) : MState :=
  { s with exiftool_attributes := Option.none, baseCache := Option.none }

/-- Translation of `Media.__set_tags` (media.py:233-243): returns Python
`None` when the record is invalid (modelled `Option.none`); otherwise opens
an ExifTool session, issues the batch set-tags request, and returns
`status != ''`. -/
def set_tags (env : Env) (s : MState) (tags : RawMap) : Option Bool × MState :=
  if !s.valid then
    (Option.none, s)
  else
    let status := env.writeStatus s.writeCalls
    let s1 := { s with writeCalls := s.writeCalls + 1,
                       writeLog := s.writeLog ++ [tags] }
    (some (status != ""), s1)

/-- Translation of `Media.set_album` (media.py:147-162): `None` when
invalid; otherwise writes `{album_key: album}`, resets the cache, and
returns the write status. -/
def set_album (env : Env) (s : MState) (album : PyVal) : Option Bool × MState :=
  if !s.valid then
    (Option.none, s)
  else
    let tags : RawMap := [(album_key, album)]
    let r := set_tags env s tags
    (r.1, reset_cache r.2)

/-- A `datetime` timestamp (only the fields `strftime('%Y:%m:%d %H:%M:%S')`
reads). -/
structure DateTime where
  year : Nat
  month : Nat
  day : Nat
  hour : Nat
  minute : Nat
  second : Nat
deriving DecidableEq

/-- Zero-pad the decimal rendering of `n` to `width` characters. -/
def padZero (width : Nat) (n : Nat) : String :=
  let s := toString n
  if s.length < width then
    String.mk (List.replicate (width - s.length) '0') ++ s
  else s

/-- `time.strftime('%Y:%m:%d %H:%M:%S')` (media.py:176): 24-hour,
zero-padded, colon-separated date, space-separated time. -/
def strftime_datetime (t : DateTime) : String :=
  padZero 4 t.year ++ ":" ++ padZero 2 t.month ++ ":" ++ padZero 2 t.day
    ++ " " ++ padZero 2 t.hour ++ ":" ++ padZero 2 t.minute
    ++ ":" ++ padZero 2 t.second

/-- The tag mapping built by `Media.set_date_taken` (media.py:175-178): the
identical formatted string assigned to every date-taken candidate key, in
list order. -/
def build_date_taken_tags (t : DateTime) : RawMap :=
  date_taken_keys.map (fun key => (key, PyVal.str (strftime_datetime t)))

/-- Translation of `Media.set_date_taken` (media.py:164-182): `False` when
`time` is `None`; otherwise (with NO `is_valid()` check of its own) builds
the date tags, calls `__set_tags` (which itself returns `None` on an invalid
record), resets the cache, and returns the status. -/
def set_date_taken (env : Env) (s : MState) (time : Option DateTime) :
    Option Bool × MState :=
  match time with
  | Option.none => (some false, s)
  | some t =>
    let tags := build_date_taken_tags t
    let r := set_tags env s tags
    (r.1, reset_cache r.2)

/-- The tag mapping built by `Media.set_location` (media.py:193-206): the
first latitude and longitude keys get the given signed values; when
`set_ref` holds, a latitude reference 'S' is added iff `latitude < 0` and a
longitude reference 'W' iff `longitude < 0` (positive coordinates never get
a reference tag). -/
def build_location_tags (latitude longitude : ℚ) (set_ref : Bool) : RawMap :=
  [(latitude_keys.headI, PyVal.num latitude),
   (longitude_keys.headI, PyVal.num longitude)]
  ++ (if set_ref ∧ latitude < 0 then [(latitude_ref_key, PyVal.str "S")] else [])
  ++ (if set_ref ∧ longitude < 0 then [(longitude_ref_key, PyVal.str "W")] else [])

/-- Translation of `Media.set_location` (media.py:184-211): `None` when
invalid; otherwise builds the location tags (with `self.set_gps_ref`),
writes them, resets the cache, and returns the status. -/
def set_location (env : Env) (s : MState) (latitude longitude : ℚ) :
    Option Bool × MState :=
  if !s.valid then
    (Option.none, s)
  else
    let tags := build_location_tags latitude longitude set_gps_ref
    let r := set_tags env s tags
    (r.1, reset_cache r.2)

/-- Translation of `Media.set_title` (media.py:213-231): `None` when invalid
or when `title` is `None`; otherwise writes `{title_key: title}`, resets the
cache, and returns the status. -/
def set_title (env : Env) (s : MState) (title : Option String) :
    Option Bool × MState :=
  if !s.valid then
    (Option.none, s)
  else
    match title with
    | Option.none => (Option.none, s)
    | some t =>
      let tags : RawMap := [(title_key, PyVal.str t)]
      let r := set_tags env s tags
      (r.1, reset_cache r.2)

/-
Concrete test fixtures (environments and object states) used by the
counterexample, failing-input and witness theorems below.
-/

/-- Fixture: exiftool available, the file has a title. -/
def envTitled : Env := ⟨true, [("XMP:Title", .str "t")], fun _ => "ok"⟩

/-- Fixture: the exiftool binary cannot be located (`get_exiftool()` is
`None`). -/
def envNoTool : Env := ⟨false, [("XMP:Title", .str "t")], fun _ => "ok"⟩

/-- Fixture: exiftool available but it reports no metadata for the file. -/
def envEmptyMeta : Env := ⟨true, [], fun _ => "ok"⟩

/-- Fixture: exiftool available, the file carries a GPS latitude of 33. -/
def envGPS : Env := ⟨true, [("EXIF:GPSLatitude", .num 33)], fun _ => "ok"⟩

/-- Fixture: exiftool available, every `set_tags` call returns the empty
status string (write rejected). -/
def envWriteFail : Env := ⟨true, [], fun _ => ""⟩

/-- Fixture: a valid record with an empty cache and zeroed counters. -/
def sValid : MState := ⟨true, Option.none, Option.none, 0, 0, 0, []⟩

/-- Fixture: a valid record whose cache fields currently hold data. -/
def sValidCached : MState := ⟨true, some [("X", .num 1)], some [("X", .num 1)], 0, 0, 0, []⟩

/-- Fixture: an invalid record (`is_valid()` is false) whose cache fields
currently hold data. -/
def sInvalidCached : MState := ⟨false, some [("X", .num 1)], some [("X", .num 1)], 0, 0, 0, []⟩

/-
Helper lemmas shared by the claim theorems.
-/

/-- When the tool is available, one `get_exiftool_attributes` call bumps the
locate and read counters once each and changes nothing else. -/
theorem gea_state_available (env : Env) (s : MState)
    (ha : env.exiftoolAvailable = true) :
    (get_exiftool_attributes env s).2
      = { s with locateCalls := s.locateCalls + 1, readCalls := s.readCalls + 1 } := by
  simp only [get_exiftool_attributes, ha, Bool.not_true, Bool.false_eq_true, if_false]
  split <;> rfl

/-- On a valid record, `get_title`'s final state is exactly the state after
the attribute fetch (every branch returns that state). -/
theorem get_title_state_valid (env : Env) (s : MState) (hv : s.valid = true) :
    (get_title env s).2 = (get_exiftool_attributes env s).2 := by
  simp only [get_title, hv, Bool.not_true, Bool.false_eq_true, if_false]
  cases h : (get_exiftool_attributes env s).1 <;> simp [h]
  split <;> rfl

/-- `reset_cache` touches only the two cache fields. -/
theorem reset_cache_fields (s : MState) :
    (reset_cache s).valid = s.valid ∧ (reset_cache s).readCalls = s.readCalls := by
  exact ⟨rfl, rfl⟩

/-- C1: for a record whose metadata read fails because the exiftool binary
cannot be located (the Gateway read returns the tool-unavailable failure
value, Python `False`), the spec claims `get_title()` returns none and never
raises.  The code instead evaluates `self.title_key not in False`, which
raises `TypeError`: evaluating the embedded `get_title` at this failing
input yields the raised exception, not none. -/
theorem get_title_raises_on_tool_unavailable :
    (get_title envNoTool sValid).1 = Except.error PyErr.typeError := rfl

/-- C3 counterexample: the Gateway read returns the very same failure value
(Python `False`, embedded `PyObj.pyFalse`) when the tool binary cannot be
located as when the tool runs but reports no metadata — the two failure
modes are not distinguished, refuting the claim at these two concrete
inputs. -/
theorem failure_values_coincide :
    (get_exiftool_attributes envNoTool sValid).1
      = (get_exiftool_attributes envEmptyMeta sValid).1 ∧
    (get_exiftool_attributes envNoTool sValid).1 = PyObj.pyFalse := ⟨rfl, rfl⟩

/-- C3 amended: the Gateway read returns one and the same failure value
(Python `False`) both when the tool binary cannot be located and when the
tool reports no metadata; that value is distinguished from success (a
non-empty metadata dict) but the two failure modes are not distinguished
from each other. -/
theorem gateway_read_failure_value (m : RawMap) (s1 s2 : MState)
    (f g : Nat → String) (k : String) (v : PyVal) (tl : RawMap) :
    (get_exiftool_attributes ⟨false, m, f⟩ s1).1 = PyObj.pyFalse ∧
    (get_exiftool_attributes ⟨true, [], g⟩ s2).1 = PyObj.pyFalse ∧
    (get_exiftool_attributes ⟨true, (k, v) :: tl, g⟩ s2).1
      = PyObj.dict ((k, v) :: tl) := ⟨rfl, rfl, rfl⟩

/-- C5: for a raw metadata mapping containing only the longitude key
`EXIF:GPSLongitude` and no reference keys, resolving the latitude returns
none, and resolving the longitude returns the raw value unchanged (no
negation applied). -/
theorem resolve_coordinate_longitude_only_mapping (q : ℚ) :
    resolve_coordinate [("EXIF:GPSLongitude", PyVal.num q)] "latitude" = Option.none ∧
    resolve_coordinate [("EXIF:GPSLongitude", PyVal.num q)] "longitude"
      = some (PyVal.num q) := by
  constructor
  · rfl
  · have h : resolve_coordinate [("EXIF:GPSLongitude", PyVal.num q)] "longitude"
        = some (PyVal.num (q * ((1 : Int) : ℚ))) := rfl
    rw [h]; norm_num

/-- C2 counterexample: on a valid record with the tool available, a second
attribute read with no intervening write or `reset_cache` invokes the
Gateway read again — after one `get_title` the read counter is 1, after a
second it is 2, so the second read did NOT reuse the first fetch as the
claim states. -/
theorem second_read_hits_gateway_again :
    (get_title envTitled sValid).2.readCalls = 1 ∧
    (get_title envTitled (get_title envTitled sValid).2).2.readCalls = 2 ∧
    ¬ (get_title envTitled (get_title envTitled sValid).2).2.readCalls
        = (get_title envTitled sValid).2.readCalls := by
  refine ⟨rfl, rfl, ?_⟩
  intro h
  have h1 : (get_title envTitled (get_title envTitled sValid).2).2.readCalls = 2 := rfl
  have h2 : (get_title envTitled sValid).2.readCalls = 1 := rfl
  rw [h1, h2] at h
  exact absurd h (by decide)

/-- C2 amended: the in-memory cache field is written by `reset_cache` but
never consulted, so every attribute read on a valid record with the tool
available fetches from the Gateway anew — a second read invokes the Gateway
read again.  `reset_cache()` twice in a row equals calling it once, and the
read following a `reset_cache` fetches from the Gateway exactly once (as
every read does). -/
theorem reads_always_fetch_and_reset_cache_idempotent (env : Env) (s : MState)
    (hv : s.valid = true) (ha : env.exiftoolAvailable = true) :
    reset_cache (reset_cache s) = reset_cache s ∧
    (get_title env (reset_cache s)).2.readCalls = (reset_cache s).readCalls + 1 ∧
    (get_title env (get_title env s).2).2.readCalls = s.readCalls + 2 := by
  have hrv : (reset_cache s).valid = true := hv
  have h1 : (get_title env (reset_cache s)).2 = (get_exiftool_attributes env (reset_cache s)).2 :=
    get_title_state_valid env (reset_cache s) hrv
  have h2 : (get_title env s).2 = (get_exiftool_attributes env s).2 :=
    get_title_state_valid env s hv
  have h3 : (get_exiftool_attributes env s).2
      = { s with locateCalls := s.locateCalls + 1, readCalls := s.readCalls + 1 } :=
    gea_state_available env s ha
  refine ⟨rfl, ?_, ?_⟩
  · rw [h1, gea_state_available env (reset_cache s) ha]
  · have hv2 : (get_title env s).2.valid = true := by rw [h2, h3]; exact hv
    rw [get_title_state_valid env (get_title env s).2 hv2,
      gea_state_available env (get_title env s).2 ha, h2, h3]

/-- C2 witness: the amended theorem applied to the concrete valid record and
tool-available environment. -/
theorem reads_always_fetch_witness :
    sValid.valid = true ∧ envTitled.exiftoolAvailable = true ∧
    (reset_cache (reset_cache sValid) = reset_cache sValid ∧
     (get_title envTitled (reset_cache sValid)).2.readCalls
        = (reset_cache sValid).readCalls + 1 ∧
     (get_title envTitled (get_title envTitled sValid).2).2.readCalls
        = sValid.readCalls + 2) :=
  ⟨rfl, rfl, reads_always_fetch_and_reset_cache_idempotent envTitled sValid rfl rfl⟩

/-- C4: the spec claims that on a record whose validity oracle is false,
`get_coordinate` first checks validity and returns none without attempting
any Gateway/tool call, like `get_album`/`get_title`.  The code has no such
check: at this failing input (invalid record, file metadata carrying
`EXIF:GPSLatitude = 33`) `get_coordinate` locates the tool, performs the
Gateway read, and returns the coordinate — while `get_album` on the same
invalid record short-circuits to none without touching the tool. -/
theorem get_coordinate_skips_validity_check :
    (get_coordinate envGPS sInvalidCached "latitude").1 = some (PyVal.num 33) ∧
    (get_coordinate envGPS sInvalidCached "latitude").2.locateCalls
      = sInvalidCached.locateCalls + 1 ∧
    (get_coordinate envGPS sInvalidCached "latitude").2.readCalls
      = sInvalidCached.readCalls + 1 ∧
    (get_album envGPS sInvalidCached).1 = Except.ok Option.none ∧
    (get_album envGPS sInvalidCached).2.locateCalls = sInvalidCached.locateCalls ∧
    (get_album envGPS sInvalidCached).2.readCalls = sInvalidCached.readCalls := by
  refine ⟨?_, rfl, rfl, rfl, rfl, rfl⟩
  have h : (get_coordinate envGPS sInvalidCached "latitude").1
      = some (PyVal.num (33 * ((1 : Int) : ℚ))) := rfl
  rw [h]; norm_num

/-- When the latitude key is present, resolution returns its value times the
multiplier selected by the latitude reference key. -/
theorem resolve_lat_key_present (raw : RawMap) (v : PyVal)
    (h : rmLookup raw "EXIF:GPSLatitude" = some v) :
    resolve_coordinate raw "latitude"
      = some (pyMul v (if rmLookup raw latitude_ref_key = some (.str "S") then -1 else 1)) := by
  simp [resolve_coordinate, latitude_keys, longitude_keys, coordLoop, h]

/-- When the longitude key is present, resolution returns its value times
the multiplier selected by the longitude reference key (the latitude keys
are iterated first but cannot match the longitude axis). -/
theorem resolve_lon_key_present (raw : RawMap) (v : PyVal)
    (h : rmLookup raw "EXIF:GPSLongitude" = some v) :
    resolve_coordinate raw "longitude"
      = some (pyMul v (if rmLookup raw longitude_ref_key = some (.str "W") then -1 else 1)) := by
  simp [resolve_coordinate, latitude_keys, longitude_keys, coordLoop, h]

/-- C6 counterexample: the raw mapping `{EXIF:GPSLatitude: 0,
EXIF:GPSLatitudeRef: 'S'}` contains the latitude key and its reference key
with value 'S', yet the resolved coordinate is 0, which is not strictly
negative — refuting the claim at this concrete input. -/
theorem south_ref_zero_latitude_not_negative :
    resolve_coordinate
        [("EXIF:GPSLatitude", PyVal.num 0), ("EXIF:GPSLatitudeRef", PyVal.str "S")]
        "latitude" = some (PyVal.num 0) ∧ ¬ ((0 : ℚ) < 0) := by
  constructor
  · have h : resolve_coordinate
        [("EXIF:GPSLatitude", PyVal.num 0), ("EXIF:GPSLatitudeRef", PyVal.str "S")]
        "latitude" = some (PyVal.num (0 * ((-1 : Int) : ℚ))) := rfl
    rw [h]; norm_num
  · norm_num

/-- C6 amended: for a raw mapping whose requested-axis key holds the number
q, a matching 'S'/'W' reference negates: the resolved value is -q, strictly
negative whenever the raw magnitude q is strictly positive; with an absent
or non-matching reference the resolved value is q itself, hence
non-negative whenever the raw magnitude is non-negative.  (At q = 0 the
resolved value is 0 in either case, which is why the original strictness
claim fails.) -/
theorem resolve_coordinate_sign_from_ref (raw : RawMap) (q : ℚ) :
    (rmLookup raw "EXIF:GPSLatitude" = some (PyVal.num q) →
      (rmLookup raw "EXIF:GPSLatitudeRef" = some (PyVal.str "S") →
        resolve_coordinate raw "latitude" = some (PyVal.num (-q)) ∧ (0 < q → -q < 0)) ∧
      (¬ rmLookup raw "EXIF:GPSLatitudeRef" = some (PyVal.str "S") →
        resolve_coordinate raw "latitude" = some (PyVal.num q) ∧ (0 ≤ q → 0 ≤ q))) ∧
    (rmLookup raw "EXIF:GPSLongitude" = some (PyVal.num q) →
      (rmLookup raw "EXIF:GPSLongitudeRef" = some (PyVal.str "W") →
        resolve_coordinate raw "longitude" = some (PyVal.num (-q)) ∧ (0 < q → -q < 0)) ∧
      (¬ rmLookup raw "EXIF:GPSLongitudeRef" = some (PyVal.str "W") →
        resolve_coordinate raw "longitude" = some (PyVal.num q) ∧ (0 ≤ q → 0 ≤ q))) := by
  constructor
  · intro hk
    have h := resolve_lat_key_present raw (PyVal.num q) hk
    constructor
    · intro href
      rw [h]
      refine ⟨?_, fun hq => by linarith⟩
      simp [latitude_ref_key, href, pyMul]
    · intro href
      rw [h]
      refine ⟨?_, fun hq => hq⟩
      simp [latitude_ref_key, href, pyMul]
  · intro hk
    have h := resolve_lon_key_present raw (PyVal.num q) hk
    constructor
    · intro href
      rw [h]
      refine ⟨?_, fun hq => by linarith⟩
      simp [longitude_ref_key, href, pyMul]
    · intro href
      rw [h]
      refine ⟨?_, fun hq => hq⟩
      simp [longitude_ref_key, href, pyMul]

/-- C6 witness: the amended theorem applied to the concrete mappings
`{GPSLatitude: 3, GPSLatitudeRef: 'S'}` (resolves to -3) and
`{GPSLongitude: 5}` (no reference, resolves to 5). -/
theorem resolve_coordinate_sign_from_ref_witness :
    rmLookup [("EXIF:GPSLatitude", PyVal.num 3), ("EXIF:GPSLatitudeRef", PyVal.str "S")]
        "EXIF:GPSLatitude" = some (PyVal.num 3) ∧
    rmLookup [("EXIF:GPSLatitude", PyVal.num 3), ("EXIF:GPSLatitudeRef", PyVal.str "S")]
        "EXIF:GPSLatitudeRef" = some (PyVal.str "S") ∧
    resolve_coordinate
        [("EXIF:GPSLatitude", PyVal.num 3), ("EXIF:GPSLatitudeRef", PyVal.str "S")]
        "latitude" = some (PyVal.num (-3)) ∧
    rmLookup [("EXIF:GPSLongitude", PyVal.num 5)] "EXIF:GPSLongitude"
        = some (PyVal.num 5) ∧
    ¬ rmLookup [("EXIF:GPSLongitude", PyVal.num 5)] "EXIF:GPSLongitudeRef"
        = some (PyVal.str "W") ∧
    resolve_coordinate [("EXIF:GPSLongitude", PyVal.num 5)] "longitude"
        = some (PyVal.num 5) :=
  ⟨rfl, rfl,
    (((resolve_coordinate_sign_from_ref
      [("EXIF:GPSLatitude", PyVal.num 3), ("EXIF:GPSLatitudeRef", PyVal.str "S")] 3).1
        rfl).1 rfl).1,
    rfl, by simp [rmLookup],
    (((resolve_coordinate_sign_from_ref
      [("EXIF:GPSLongitude", PyVal.num 5)] 5).2 rfl).2 (by simp [rmLookup])).1⟩

/-- C7: building location tags for latitude -33.8 and longitude 151.2 with
reference-setting enabled yields exactly `{EXIF:GPSLatitude: -33.8,
EXIF:GPSLongitude: 151.2, EXIF:GPSLatitudeRef: 'S'}` — no longitude
reference key, since longitude is positive; and in general a reference key
is written if and only if the corresponding coordinate is strictly
negative. -/
theorem build_location_tags_spec :
    build_location_tags (-33.8) 151.2 true
      = [("EXIF:GPSLatitude", PyVal.num (-33.8)),
         ("EXIF:GPSLongitude", PyVal.num 151.2),
         ("EXIF:GPSLatitudeRef", PyVal.str "S")] ∧
    rmLookup (build_location_tags (-33.8) 151.2 true) longitude_ref_key = Option.none ∧
    ∀ lat lon : ℚ,
      (rmLookup (build_location_tags lat lon true) latitude_ref_key
        = if lat < 0 then some (PyVal.str "S") else Option.none) ∧
      (rmLookup (build_location_tags lat lon true) longitude_ref_key
        = if lon < 0 then some (PyVal.str "W") else Option.none) := by
  have h7 : build_location_tags (-33.8) 151.2 true
      = [("EXIF:GPSLatitude", PyVal.num (-33.8)),
         ("EXIF:GPSLongitude", PyVal.num 151.2),
         ("EXIF:GPSLatitudeRef", PyVal.str "S")] := by
    norm_num [build_location_tags, latitude_keys, longitude_keys, latitude_ref_key,
      longitude_ref_key]
  refine ⟨h7, by rw [h7]; rfl, ?_⟩
  intro lat lon
  constructor
  · by_cases hl : lat < 0 <;> by_cases ho : lon < 0 <;>
      simp [build_location_tags, rmLookup, hl, ho, latitude_keys, longitude_keys,
        latitude_ref_key, longitude_ref_key]
  · by_cases hl : lat < 0 <;> by_cases ho : lon < 0 <;>
      simp [build_location_tags, rmLookup, hl, ho, latitude_keys, longitude_keys,
        latitude_ref_key, longitude_ref_key]

/-- C8: the date-taken tag mapping assigns the identical formatted string
`YYYY:MM:DD HH:MM:SS` (24-hour, zero-padded) to all three date-taken
candidate keys; for the timestamp 2023-05-01 10:30:00 every one of the
three keys maps to the literal string "2023:05:01 10:30:00". -/
theorem build_date_taken_tags_spec (t : DateTime) :
    (∀ k, k ∈ date_taken_keys →
      rmLookup (build_date_taken_tags t) k = some (PyVal.str (strftime_datetime t))) ∧
    build_date_taken_tags ⟨2023, 5, 1, 10, 30, 0⟩
      = [("EXIF:DateTimeOriginal", PyVal.str "2023:05:01 10:30:00"),
         ("EXIF:DateTime", PyVal.str "2023:05:01 10:30:00"),
         ("EXIF:DateTimeDigitized", PyVal.str "2023:05:01 10:30:00")] := by
  constructor
  · intro k hk
    simp only [date_taken_keys, List.mem_cons, List.not_mem_nil, or_false] at hk
    rcases hk with rfl | rfl | rfl <;> rfl
  · rfl

/-- C8 witness: the second date-taken candidate key of the concrete
timestamp, via the theorem. -/
theorem build_date_taken_tags_spec_witness :
    ("EXIF:DateTime" ∈ date_taken_keys) ∧
    rmLookup (build_date_taken_tags ⟨2023, 5, 1, 10, 30, 0⟩) "EXIF:DateTime"
      = some (PyVal.str (strftime_datetime ⟨2023, 5, 1, 10, 30, 0⟩)) :=
  ⟨by decide, (build_date_taken_tags_spec ⟨2023, 5, 1, 10, 30, 0⟩).1
    "EXIF:DateTime" (by decide)⟩

/-- C9: every setter that passes its validity/absence checks reaches the
Gateway write (the write counter is bumped), unconditionally clears the
metadata cache afterwards, and returns the write's success boolean
`status != ''` — in particular, when the tool returns an empty status the
operation reports `some false` and the cache is still invalidated. -/
theorem setters_clear_cache_after_write (env : Env) (s : MState) (alb : PyVal)
    (ttl : String) (t : DateTime) (lat lon : ℚ) (hv : s.valid = true) :
    ((set_album env s alb).2.writeCalls = s.writeCalls + 1 ∧
     (set_album env s alb).2.exiftool_attributes = Option.none ∧
     (set_album env s alb).2.baseCache = Option.none ∧
     (set_album env s alb).1 = some (env.writeStatus s.writeCalls != "")) ∧
    ((set_title env s (some ttl)).2.writeCalls = s.writeCalls + 1 ∧
     (set_title env s (some ttl)).2.exiftool_attributes = Option.none ∧
     (set_title env s (some ttl)).2.baseCache = Option.none ∧
     (set_title env s (some ttl)).1 = some (env.writeStatus s.writeCalls != "")) ∧
    ((set_date_taken env s (some t)).2.writeCalls = s.writeCalls + 1 ∧
     (set_date_taken env s (some t)).2.exiftool_attributes = Option.none ∧
     (set_date_taken env s (some t)).2.baseCache = Option.none ∧
     (set_date_taken env s (some t)).1 = some (env.writeStatus s.writeCalls != "")) ∧
    ((set_location env s lat lon).2.writeCalls = s.writeCalls + 1 ∧
     (set_location env s lat lon).2.exiftool_attributes = Option.none ∧
     (set_location env s lat lon).2.baseCache = Option.none ∧
     (set_location env s lat lon).1 = some (env.writeStatus s.writeCalls != "")) ∧
    (env.writeStatus s.writeCalls = "" →
      (set_album env s alb).1 = some false ∧
      (set_title env s (some ttl)).1 = some false ∧
      (set_date_taken env s (some t)).1 = some false ∧
      (set_location env s lat lon).1 = some false) := by
  refine ⟨?_, ?_, ?_, ?_, ?_⟩
  · simp [set_album, set_tags, reset_cache, hv]
  · simp [set_title, set_tags, reset_cache, hv]
  · simp [set_date_taken, set_tags, reset_cache, hv]
  · simp [set_location, set_tags, reset_cache, hv]
  · intro hw
    refine ⟨?_, ?_, ?_, ?_⟩ <;>
      simp [set_album, set_title, set_date_taken, set_location, set_tags,
        reset_cache, hv, hw]

/-- C9 witness: the theorem at a concrete valid cached record and an
environment whose every write returns the empty status: each setter reports
`some false` yet the cache fields are cleared. -/
theorem setters_clear_cache_after_write_witness :
    sValidCached.valid = true ∧
    (((set_album envWriteFail sValidCached (.str "Trip")).2.writeCalls
        = sValidCached.writeCalls + 1 ∧
      (set_album envWriteFail sValidCached (.str "Trip")).2.exiftool_attributes
        = Option.none ∧
      (set_album envWriteFail sValidCached (.str "Trip")).2.baseCache = Option.none ∧
      (set_album envWriteFail sValidCached (.str "Trip")).1
        = some (envWriteFail.writeStatus sValidCached.writeCalls != "")) ∧
     ((set_title envWriteFail sValidCached (some "T")).2.writeCalls
        = sValidCached.writeCalls + 1 ∧
      (set_title envWriteFail sValidCached (some "T")).2.exiftool_attributes
        = Option.none ∧
      (set_title envWriteFail sValidCached (some "T")).2.baseCache = Option.none ∧
      (set_title envWriteFail sValidCached (some "T")).1
        = some (envWriteFail.writeStatus sValidCached.writeCalls != "")) ∧
     ((set_date_taken envWriteFail sValidCached (some ⟨2023, 5, 1, 10, 30, 0⟩)).2.writeCalls
        = sValidCached.writeCalls + 1 ∧
      (set_date_taken envWriteFail sValidCached
          (some ⟨2023, 5, 1, 10, 30, 0⟩)).2.exiftool_attributes = Option.none ∧
      (set_date_taken envWriteFail sValidCached
          (some ⟨2023, 5, 1, 10, 30, 0⟩)).2.baseCache = Option.none ∧
      (set_date_taken envWriteFail sValidCached (some ⟨2023, 5, 1, 10, 30, 0⟩)).1
        = some (envWriteFail.writeStatus sValidCached.writeCalls != "")) ∧
     ((set_location envWriteFail sValidCached 1 2).2.writeCalls
        = sValidCached.writeCalls + 1 ∧
      (set_location envWriteFail sValidCached 1 2).2.exiftool_attributes
        = Option.none ∧
      (set_location envWriteFail sValidCached 1 2).2.baseCache = Option.none ∧
      (set_location envWriteFail sValidCached 1 2).1
        = some (envWriteFail.writeStatus sValidCached.writeCalls != "")) ∧
     (envWriteFail.writeStatus sValidCached.writeCalls = "" →
       (set_album envWriteFail sValidCached (.str "Trip")).1 = some false ∧
       (set_title envWriteFail sValidCached (some "T")).1 = some false ∧
       (set_date_taken envWriteFail sValidCached (some ⟨2023, 5, 1, 10, 30, 0⟩)).1
         = some false ∧
       (set_location envWriteFail sValidCached 1 2).1 = some false)) :=
  ⟨rfl, setters_clear_cache_after_write envWriteFail sValidCached (.str "Trip") "T"
    ⟨2023, 5, 1, 10, 30, 0⟩ 1 2 rfl⟩

/-- C10: on a record whose validity oracle is false and a non-absent
timestamp, `set_date_taken` returns Python `None` (not `False`), never
invokes the external tool (no write, no read, no locate, nothing appended
to the write log), and nevertheless clears the metadata cache — whereas
`set_album`, `set_title` and `set_location` on the same invalid record
return `None` before touching the cache, leaving the state unchanged. -/
theorem set_date_taken_invalid_clears_cache (env : Env) (s : MState) (t : DateTime)
    (alb : PyVal) (ttl : String) (lat lon : ℚ) (hv : s.valid = false) :
    set_date_taken env s (some t) = (Option.none, reset_cache s) ∧
    (set_date_taken env s (some t)).2.writeCalls = s.writeCalls ∧
    (set_date_taken env s (some t)).2.writeLog = s.writeLog ∧
    (set_date_taken env s (some t)).2.readCalls = s.readCalls ∧
    (set_date_taken env s (some t)).2.locateCalls = s.locateCalls ∧
    (set_date_taken env s (some t)).2.exiftool_attributes = Option.none ∧
    set_album env s alb = (Option.none, s) ∧
    set_title env s (some ttl) = (Option.none, s) ∧
    set_location env s lat lon = (Option.none, s) := by
  refine ⟨?_, ?_, ?_, ?_, ?_, ?_, ?_, ?_, ?_⟩ <;>
    simp [set_date_taken, set_album, set_title, set_location, set_tags,
      reset_cache, hv]

/-- C10 witness: the theorem at a concrete invalid record whose cache holds
data — `set_date_taken` clears it while `set_album`/`set_title`/
`set_location` leave the state untouched. -/
theorem set_date_taken_invalid_clears_cache_witness :
    sInvalidCached.valid = false ∧
    (set_date_taken envWriteFail sInvalidCached (some ⟨2023, 5, 1, 10, 30, 0⟩)
        = (Option.none, reset_cache sInvalidCached) ∧
     (set_date_taken envWriteFail sInvalidCached
        (some ⟨2023, 5, 1, 10, 30, 0⟩)).2.writeCalls = sInvalidCached.writeCalls ∧
     (set_date_taken envWriteFail sInvalidCached
        (some ⟨2023, 5, 1, 10, 30, 0⟩)).2.writeLog = sInvalidCached.writeLog ∧
     (set_date_taken envWriteFail sInvalidCached
        (some ⟨2023, 5, 1, 10, 30, 0⟩)).2.readCalls = sInvalidCached.readCalls ∧
     (set_date_taken envWriteFail sInvalidCached
        (some ⟨2023, 5, 1, 10, 30, 0⟩)).2.locateCalls = sInvalidCached.locateCalls ∧
     (set_date_taken envWriteFail sInvalidCached
        (some ⟨2023, 5, 1, 10, 30, 0⟩)).2.exiftool_attributes = Option.none ∧
     set_album envWriteFail sInvalidCached (.str "Trip")
        = (Option.none, sInvalidCached) ∧
     set_title envWriteFail sInvalidCached (some "T")
        = (Option.none, sInvalidCached) ∧
     set_location envWriteFail sInvalidCached 1 2
        = (Option.none, sInvalidCached)) :=
  ⟨rfl, set_date_taken_invalid_clears_cache envWriteFail sInvalidCached
    ⟨2023, 5, 1, 10, 30, 0⟩ (.str "Trip") "T" 1 2 rfl⟩

end Elodie
